import Mathlib

/-!
Verification of the GEO article-audit engine (`src/geo_audit/analyzer.py`).

The engine's core is pure: it takes the article body (parsed HTML), the meta
description and the title and produces ten boolean criterion verdicts, a score
and a list of recommendation strings.  This file is a shallow embedding of that
core:

* Python strings are modelled as `String`/`List Char` (sequences of Unicode
  code points, exactly as Python indexes/slices them);
* the parsed HTML document (a BeautifulSoup tree, produced by the external
  `bs4` library from `content_html`) is modelled by the first-order tree type
  `Forest`; `analyze_article` takes the parsed tree as input, the parse step
  itself being an external-library call outside this repository (the empty
  input string parses to the empty tree);
* each compiled regular expression of the source is embedded as an executable
  matcher over `List Char`, together with the `findall`/`finditer`/`search`
  scanning loop (try a match at every position, non-overlapping advance);
  where the Python engine's backtracking is provably vacuous for a particular
  pattern, the matcher is written in its deterministic normal form and the
  justification is recorded in a comment at that spot.

Python's `\w`, `\d`, `str.lower()` are full-Unicode.  The embedding implements
them exactly on ASCII, Latin-1 Supplement and Latin Extended-A (code points
below 0x17F), which covers every character class and literal appearing in the
source's patterns and every input considered here; a handful of exotic code
points with case pairs crossing into these blocks (ʼn-like digraphs, the long s,
the Kelvin sign) are outside the modelled fragment and occur in no input.
-/

namespace GeoAudit

/-! ## Character classes (Python `\d`, `\s`, `\w`, `str.lower`) -/

/-- Python `\d` restricted to ASCII decimal digits (the only digits occurring
in the texts considered; Python's `\d` also accepts other Unicode `Nd`). -/
def isAsciiDigit (c : Char) : Bool :=
  decide ('0' ≤ c) && decide (c ≤ '9')

/-- Python `\s` / `str.strip` whitespace: space, tab, newline, carriage
return, vertical tab, form feed (the ASCII whitespace; Python additionally
strips exotic Unicode spaces, none of which occur here). -/
def isSpaceChar (c : Char) : Bool :=
  c == ' ' || c == '\t' || c == '\n' || c == '\r' || c == '\x0b' || c == '\x0c'

/-- Python `\w` (word character) on the modelled fragment: ASCII letters,
digits, underscore, and the letters of Latin-1 Supplement / Latin Extended-A
(0xC0–0x17E), excluding the two non-letters in that range, the multiplication
sign 0xD7 and the division sign 0xF7. -/
def isWordChar (c : Char) : Bool :=
  (decide ('a' ≤ c) && decide (c ≤ 'z')) ||
  (decide ('A' ≤ c) && decide (c ≤ 'Z')) ||
  isAsciiDigit c || c == '_' ||
  (decide (0xC0 ≤ c.toNat) && decide (c.toNat ≤ 0x17E) &&
    !(c.toNat == 0xD7) && !(c.toNat == 0xF7))

/-- Python `str.lower` (simple lowercase mapping) on ASCII, Latin-1
Supplement and Latin Extended-A; the identity elsewhere. -/
def lowerLat (c : Char) : Char :=
  let n := c.toNat
  if decide ('A' ≤ c) && decide (c ≤ 'Z') then Char.ofNat (n + 0x20)
  else if decide (0xC0 ≤ n) && decide (n ≤ 0xDE) && !(n == 0xD7) then Char.ofNat (n + 0x20)
  else if decide (0x100 ≤ n) && decide (n ≤ 0x136) && n % 2 == 0 then Char.ofNat (n + 1)
  else if decide (0x139 ≤ n) && decide (n ≤ 0x147) && n % 2 == 1 then Char.ofNat (n + 1)
  else if decide (0x14A ≤ n) && decide (n ≤ 0x176) && n % 2 == 0 then Char.ofNat (n + 1)
  else if n == 0x178 then Char.ofNat 0xFF
  else if decide (0x179 ≤ n) && decide (n ≤ 0x17D) && n % 2 == 1 then Char.ofNat (n + 1)
  else c

/-! ## List-of-code-point utilities (Python string operations) -/

/-- Python `str.strip()`: drop leading and trailing whitespace. -/
def stripChars (s : List Char) : List Char :=
  ((s.dropWhile isSpaceChar).reverse.dropWhile isSpaceChar).reverse

/-- Python `str.lower()` character-wise. -/
def lowerList (s : List Char) : List Char :=
  s.map lowerLat

/-- Python `str.startswith`: `needle` is a prefix of `hay`. -/
def startsWithChars : List Char → List Char → Bool
  | [], _ => true
  | _ :: _, [] => false
  | p :: ps, c :: cs => p == c && startsWithChars ps cs

/-- Python `needle in hay` (substring containment). -/
def containsSub (needle : List Char) : List Char → Bool
  | [] => startsWithChars needle []
  | c :: rest => startsWithChars needle (c :: rest) || containsSub needle rest

/-! ## Regex building blocks

A matcher has type `Option Char → List Char → Option Nat`: given the
character immediately before the current position (`none` at the start of the
haystack) and the remaining input, it returns the number of characters a match
starting here consumes, or `none`.  This is exactly the interface the
`re` scanning loop needs: `\b` is decided from the previous/next character. -/

/-- Word-ness of an optional character; string edges count as non-word. -/
def isWordOpt : Option Char → Bool
  | none => false
  | some c => isWordChar c

/-- Python `\b`: the position between `a` and `b` is a word boundary. -/
def atBoundary (a b : Option Char) : Bool :=
  isWordOpt a != isWordOpt b

/-- Case-insensitive literal match at the head of the input (the literal is
given in lowercase); returns the remaining input on success.  This is Python
`re.IGNORECASE` literal matching on the modelled code-point fragment. -/
def litAtCI : List Char → List Char → Option (List Char)
  | [], s => some s
  | _ :: _, [] => none
  | l :: ls, c :: cs => if lowerLat c == l then litAtCI ls cs else none

/-- Alternation of case-insensitive literals, each followed by `\b`, tried in
the given order (Python alternation semantics: first alternative whose literal
and trailing boundary both succeed wins).  Returns the number of characters
consumed.  The trailing boundary is computed from the last matched input
character and the character following the match. -/
def tryLitsB : List (List Char) → List Char → Option Nat
  | [], _ => none
  | u :: us, s =>
    match litAtCI u s with
    | some rest =>
        if atBoundary ((s.take u.length).getLast?) rest.head? then some u.length
        else tryLitsB us s
    | none => tryLitsB us s

/-! ## The scanning loops (`re.findall` / `re.finditer` / `re.search`)

`re` tries a match at every position left to right; a successful match
consumes its characters (non-overlapping continuation), a failure advances one
code point.  The fuel argument equals the remaining input length, which
suffices because every iteration consumes at least one character. -/

/-- Number of non-overlapping matches (`len(re.findall(...))`). -/
def scanCountFuel (m : Option Char → List Char → Option Nat) :
    Nat → Option Char → List Char → Nat
  | 0, _, _ => 0
  | _ + 1, _, [] => 0
  | fuel + 1, prev, c :: rest =>
    match m prev (c :: rest) with
    | some (k + 1) => 1 + scanCountFuel m fuel (some ((c :: rest).getD k c)) (rest.drop k)
    | _ => scanCountFuel m fuel (some c) rest

/-- `len(re.findall(pattern, s))` for a pattern embedded as matcher `m`. -/
def scanCount (m : Option Char → List Char → Option Nat) (s : List Char) : Nat :=
  scanCountFuel m s.length none s

/-- `re.search(pattern, s) is not None` for a pattern embedded as matcher
`m`: some position admits a match. -/
def scanHas (m : Option Char → List Char → Option Nat) : Option Char → List Char → Bool
  | _, [] => false
  | prev, c :: rest => (m prev (c :: rest)).isSome || scanHas m (some c) rest

/-! ## The source's compiled patterns (`analyzer.py`, lines 14–77) -/

/-- The unit alternatives of `UNITS_NUMBER_RE`, in the source's order:
`(mg|g|kg|%|kcal|ml|mcg|gramov|miligramov)`. -/
def unitLits : List (List Char) :=
  ["mg".toList, "g".toList, "kg".toList, "%".toList, "kcal".toList,
   "ml".toList, "mcg".toList, "gramov".toList, "miligramov".toList]

/-- `UNITS_NUMBER_RE = \b\d+(?:[.,]\d+)?\s?(unit...)\b` with
`re.IGNORECASE | re.UNICODE`, as a matcher.

Backtracking notes (why the deterministic maximal-munch form below is exactly
the Python engine's behaviour): if `\d+` gave back a digit, the next element
would have to match at a digit, but `[.,]`, `\s` and every unit alternative
begin with a non-digit, so only the maximal digit run can succeed; the same
argument applies to the digit run inside `(?:[.,]\d+)?`.  The optional `\s?`
is tried greedily with the whitespace consumed and then, on failure, without
it — both branches are implemented below. -/
def matchUnitsAt (prev : Option Char) (s : List Char) : Option Nat :=
  if !atBoundary prev s.head? then none
  else
    let digits := s.takeWhile isAsciiDigit
    if digits.isEmpty then none
    else
      let r1 := s.drop digits.length
      let decLen : Nat :=
        match r1 with
        | p :: r2 =>
          if p == '.' || p == ',' then
            let d2 := r2.takeWhile isAsciiDigit
            if d2.isEmpty then 0 else d2.length + 1
          else 0
        | [] => 0
      let r2 := r1.drop decLen
      let afterNum := digits.length + decLen
      let withSpace : Option Nat :=
        match r2 with
        | sp :: r3 =>
          if isSpaceChar sp then (tryLitsB unitLits r3).map (fun k => afterNum + 1 + k)
          else none
        | [] => none
      match withSpace with
      | some n => some n
      | none => (tryLitsB unitLits r2).map (fun k => afterNum + k)

/-- First character of the term group of `DEFINITION_RE`: the class
`[A-Za-zÀ-ž]`.  The code-point range `À-ž` is 0xC0–0x17E and therefore also
contains the multiplication and division signs, exactly as in the source. -/
def isDefClassFirst (c : Char) : Bool :=
  (decide ('a' ≤ c) && decide (c ≤ 'z')) ||
  (decide ('A' ≤ c) && decide (c ≤ 'Z')) ||
  (decide (0xC0 ≤ c.toNat) && decide (c.toNat ≤ 0x17E))

/-- Continuation characters of the term group: the class `[A-Za-zÀ-ž\-]`. -/
def isDefClass (c : Char) : Bool :=
  isDefClassFirst c || c == '-'

/-- The verb alternatives of `DEFINITION_RE`: `(je|znamená|predstavuje)`. -/
def defVerbLits : List (List Char) :=
  ["je".toList, "znamená".toList, "predstavuje".toList]

/-- `DEFINITION_RE = \b([A-Za-zÀ-ž][A-Za-zÀ-ž\-]{2,})\s+(je|znamená|predstavuje)\b`
with `re.IGNORECASE`, as a matcher returning (consumed length, the group-1
term).

Backtracking notes: the term class is disjoint from `\s`, so if the greedy
`{2,}` gave back a character, `\s+` would have to match a class character and
fail — only the maximal class run can succeed; likewise if `\s+` gave back a
whitespace character, the verb literal would have to match at whitespace and
fail, so only the maximal whitespace run can succeed. -/
def matchDefAt (prev : Option Char) (s : List Char) : Option (Nat × List Char) :=
  if !atBoundary prev s.head? then none
  else
    match s with
    | [] => none
    | c :: rest =>
      if !isDefClassFirst c then none
      else
        let tail := rest.takeWhile isDefClass
        let run := c :: tail
        if decide (run.length < 3) then none
        else
          let r1 := rest.drop tail.length
          let ws := r1.takeWhile isSpaceChar
          if ws.isEmpty then none
          else
            match tryLitsB defVerbLits (r1.drop ws.length) with
            | some k => some (run.length + ws.length + k, run)
            | none => none

/-- `re.finditer(DEFINITION_RE, s)`: the group-1 terms of all
(non-overlapping, left to right) matches, in order. -/
def scanDefTermsFuel : Nat → Option Char → List Char → List (List Char)
  | 0, _, _ => []
  | _ + 1, _, [] => []
  | fuel + 1, prev, c :: rest =>
    match matchDefAt prev (c :: rest) with
    | some (k + 1, term) =>
        term :: scanDefTermsFuel fuel (some ((c :: rest).getD k c)) (rest.drop k)
    | _ => scanDefTermsFuel fuel (some c) rest

/-- Group-1 terms of all `DEFINITION_RE` matches in `s`. -/
def scanDefTerms (s : List Char) : List (List Char) :=
  scanDefTermsFuel s.length none s

/-- `DEFINITION_STOPWORDS` (a Python set; membership is exact equality of the
lowercased term). -/
def stopwordLits : List (List Char) :=
  ["toto".toList, "to".toList, "ten".toList, "tá".toList, "ta".toList,
   "tieto".toList, "tak".toList, "taky".toList,
   "čas".toList, "cas".toList, "telo".toList, "dnes".toList,
   "včera".toList, "vcera".toList, "zajtra".toList,
   "život".toList, "zivot".toList, "človek".toList, "clovek".toList,
   "ľudia".toList, "ludia".toList,
   "pravda".toList, "fakt".toList, "fakty".toList,
   "informácia".toList, "informacia".toList]

/-- The alternatives of `SOURCE_TEXT_RE`:
`\b(zdroje|references|referencie|štúdie|studie|literatúra|literatura)\b`. -/
def sourceTextLits : List (List Char) :=
  ["zdroje".toList, "references".toList, "referencie".toList,
   "štúdie".toList, "studie".toList, "literatúra".toList, "literatura".toList]

/-- The alternatives of `FAQ_TEXT_RE`:
`\b(faq|časté otázky|caste otazky|najčastejšie otázky|najcastejsie otazky)\b`. -/
def faqTextLits : List (List Char) :=
  ["faq".toList, "časté otázky".toList, "caste otazky".toList,
   "najčastejšie otázky".toList, "najcastejsie otazky".toList]

/-- Matcher for a `\b(alternatives)\b` pattern (`SOURCE_TEXT_RE`,
`FAQ_TEXT_RE`): leading boundary between the previous character and the first
matched character, then the alternation with trailing boundary. -/
def matchWordAltAt (lits : List (List Char)) (prev : Option Char) (s : List Char) : Option Nat :=
  if !atBoundary prev s.head? then none else tryLitsB lits s

/-- The domain alternatives of `SOURCE_DOMAIN_RE`, in the source's order. -/
def domainLits : List (List Char) :=
  ["pubmed.ncbi.nlm.nih.gov".toList, "ncbi.nlm.nih.gov".toList,
   "examine.com".toList, "who.int".toList, "nih.gov".toList, "cdc.gov".toList,
   "efsa.europa.eu".toList, "cochranelibrary.com".toList,
   "jamanetwork.com".toList, "nejm.org".toList, "nature.com".toList,
   "science.org".toList]

/-- `SOURCE_DOMAIN_RE = https?://(?:www\.)?(domain...)\b` with
`re.IGNORECASE`, as a matcher.  There is no leading `\b` in this pattern.
The optional `s` and the optional `www.` are each tried greedily first and
then, on failure of the rest of the pattern, without — both branches are
implemented. -/
def matchDomainAt (_prev : Option Char) (s : List Char) : Option Nat :=
  match litAtCI "http".toList s with
  | none => none
  | some r1 =>
    let afterScheme : Option (Nat × List Char) :=
      match
        (match r1 with
         | c :: r2 =>
           if lowerLat c == 's' then
             match litAtCI "://".toList r2 with
             | some r3 => some (8, r3)
             | none => none
           else none
         | [] => none) with
      | some x => some x
      | none =>
        match litAtCI "://".toList r1 with
        | some r3 => some (7, r3)
        | none => none
    match afterScheme with
    | none => none
    | some (n1, r3) =>
      let withWww : Option Nat :=
        match litAtCI "www.".toList r3 with
        | some r4 => (tryLitsB domainLits r4).map (fun k => n1 + 4 + k)
        | none => none
      match withWww with
      | some n => some n
      | none => (tryLitsB domainLits r3).map (fun k => n1 + k)

/-- `BANNED_INTRO_PHRASES` (matched by Python substring containment against
the lowercased first 150 characters). -/
def bannedIntroLits : List (List Char) :=
  ["v tomto článku".toList, "v tomto clanku".toList,
   "pozrieme sa".toList, "poďme sa pozrieť".toList, "podme sa pozriet".toList,
   "dozviete sa".toList, "zistíte".toList, "zistite".toList,
   "na úvod".toList, "na uvod".toList,
   "v dnešnom článku".toList, "v dnesnom clanku".toList,
   "predstavíme si".toList, "predstavime si".toList]

/-- `WORD_RE = \b\w+\b` findall count.  `\w+` is greedy, so every match is a
maximal run of word characters and both boundaries hold automatically at the
edges of a maximal run; the count is therefore the number of maximal word
runs, computed by a single pass. -/
def countWordsAux : Bool → List Char → Nat
  | _, [] => 0
  | inWord, c :: rest =>
    if isWordChar c then (if inWord then 0 else 1) + countWordsAux true rest
    else countWordsAux false rest

/-- `_count_words(text) = len(WORD_RE.findall(text))`. -/
def countWords (s : List Char) : Nat :=
  countWordsAux false s

/-- Sentence-final punctuation of `_first_sentence`'s split pattern
`(?<=[.!?])\s+`. -/
def isSentPunct (c : Char) : Bool :=
  c == '.' || c == '!' || c == '?'

/-- `re.split(r"(?<=[.!?])\s+", t)[0]`: the prefix of `t` up to and including
the first `.`/`!`/`?` that is immediately followed by whitespace (the whole
string when there is no such position). -/
def splitFirstPart : List Char → List Char
  | [] => []
  | [c] => [c]
  | c :: d :: rest =>
    if isSentPunct c && isSpaceChar d then [c]
    else c :: splitFirstPart (d :: rest)

/-- `_first_sentence(text)`: strip, take the first sentence of the split,
truncate to 400 characters, strip again.  Empty input yields the empty
string, matching the source's early return. -/
def firstSentence (text : List Char) : List Char :=
  stripChars ((splitFirstPart (stripChars text)).take 400)

/-! ## The parsed document (`BeautifulSoup` tree after `html.parser`)

`Forest` is a first-order rendering of a BeautifulSoup node list: a sequence
whose items are text nodes (`NavigableString`) or elements with a tag name, an
attribute dictionary and a child forest.  Parsing `content_html` into this
tree is done by the external `bs4` library; the embedding takes the parsed
tree as input.  Parsing the empty string yields `Forest.nil`. -/

inductive Forest where
  | nil : Forest
  | text (s : String) (rest : Forest) : Forest
  | elem (tag : String) (attrs : List (String × String)) (children : Forest) (rest : Forest) : Forest
deriving DecidableEq

/-- First value of an attribute key in an attribute dictionary. -/
def lookupAttr (key : String) : List (String × String) → Option String
  | [] => none
  | (k, v) :: rest => if k == key then some v else lookupAttr key rest

/-- `NOISE_SELECTORS = ("header", "footer", "nav", "aside", "form",
"noscript")`. -/
def noiseSelectors : List String :=
  ["header", "footer", "nav", "aside", "form", "noscript"]

/-- A node `_strip_noise` decomposes: its tag is one of `NOISE_SELECTORS`, or
it carries the attribute `aria-modal="true"`. -/
def isNoiseElem (tag : String) (attrs : List (String × String)) : Bool :=
  noiseSelectors.contains tag ||
    (match lookupAttr "aria-modal" attrs with
     | some v => v == "true"
     | none => false)

/-- `_strip_noise`: decompose (remove with all descendants) every node whose
tag is in `NOISE_SELECTORS` and every node with `aria-modal="true"`.  The
source removes them in several `find_all` passes; since `decompose` deletes a
node together with its whole subtree and the passes never reinsert nodes, the
passes are jointly equivalent to this single top-down filter. -/
def stripNoise : Forest → Forest
  | Forest.nil => Forest.nil
  | Forest.text s rest => Forest.text s (stripNoise rest)
  | Forest.elem t a c rest =>
      if isNoiseElem t a then stripNoise rest
      else Forest.elem t a (stripNoise c) (stripNoise rest)

/-- No node of the forest (at any depth) is a noise node. -/
def noNoise : Forest → Bool
  | Forest.nil => true
  | Forest.text _ rest => noNoise rest
  | Forest.elem t a c rest => !isNoiseElem t a && noNoise c && noNoise rest

/-- All string nodes of the forest, in document order (this includes the text
inside `script` elements, exactly as BeautifulSoup's `get_text` does). -/
def collectTexts : Forest → List String
  | Forest.nil => []
  | Forest.text s rest => s :: collectTexts rest
  | Forest.elem _ _ c rest => collectTexts c ++ collectTexts rest

/-- `soup.get_text(" ", strip=True)`: strip every string node, skip the ones
that become empty, join the rest with a single space
(`_plain_text_from_soup`). -/
def getText (f : Forest) : String :=
  String.intercalate " "
    (((collectTexts f).map (fun s => String.mk (stripChars s.toList))).filter
      (fun s => !s.isEmpty))

/-- `len(soup.find_all(tag))`: number of elements with the given tag name, at
any depth. -/
def countTag (tag : String) : Forest → Nat
  | Forest.nil => 0
  | Forest.text _ rest => countTag tag rest
  | Forest.elem t _ c rest =>
      (if t == tag then 1 else 0) + countTag tag c + countTag tag rest

/-- `href` values of all `<a>` elements having an `href` attribute
(`soup.find_all("a", href=True)`), in document order. -/
def collectHrefs : Forest → List String
  | Forest.nil => []
  | Forest.text _ rest => collectHrefs rest
  | Forest.elem t attrs c rest =>
      (if t == "a" then
        (match lookupAttr "href" attrs with
         | some v => [v]
         | none => [])
       else []) ++ collectHrefs c ++ collectHrefs rest

/-- BeautifulSoup `tag.string` on a child forest: the single string child if
there is exactly one child and it is a string (recursing through a single
element child), otherwise the empty string — the source wraps the `None` case
with `_safe_str`, which yields `""`. -/
def soleString : Forest → String
  | Forest.text s Forest.nil => s
  | Forest.elem _ _ c Forest.nil => soleString c
  | _ => ""

/-- Some `<script type="application/ld+json">` element (at any depth) whose
string contains the literal `"FAQPage"`. -/
def hasFaqSchema : Forest → Bool
  | Forest.nil => false
  | Forest.text _ rest => hasFaqSchema rest
  | Forest.elem t attrs c rest =>
      (t == "script" &&
        (match lookupAttr "type" attrs with
         | some v => v == "application/ld+json"
         | none => false) &&
        containsSub "FAQPage".toList (soleString c).toList)
      || hasFaqSchema c || hasFaqSchema rest

/-! ## The ten criterion checks (verdicts)

Each Python check returns `(passed, evidence_dict)`; the aggregator consumes
only the boolean, the evidence dictionaries being diagnostic output.  The
embedding models each check's verdict; threshold parameters are explicit and
the aggregator passes the source's defaults. -/

/-- Criterion 1, `check_direct_answer(plain_text)`. -/
def check_direct_answer (plainText : String) : Bool :=
  let text := stripChars plainText.toList
  let lowered := lowerList (text.take 150)
  let bannedAny := bannedIntroLits.any (fun p => containsSub p lowered)
  let first := firstSentence text
  let looksLikeQuestion :=
    (match first.getLast? with
     | some c => c == '?'
     | none => false) || containsSub ['?'] (first.take 120)
  !first.isEmpty && !bannedAny && !looksLikeQuestion && decide (6 ≤ countWords first)

/-- The `for m in DEFINITION_RE.finditer(window)` loop of `check_definition`:
skip a term that strips to empty, a stopword term, and — in strict mode with
a non-empty title — a term whose lowercase form is not a substring of the
lowercase title; the first surviving term passes the check. -/
def defLoop (strict : Bool) (titleL : List Char) : List (List Char) → Bool
  | [] => false
  | term :: rest =>
    let termS := stripChars term
    if termS.isEmpty then defLoop strict titleL rest
    else
      let termL := lowerList termS
      if stopwordLits.contains termL then defLoop strict titleL rest
      else if strict && !titleL.isEmpty && !containsSub termL titleL then
        defLoop strict titleL rest
      else true

/-- Criterion 2, `check_definition(plain_text, title=, strict=,
window_chars=)`; the aggregator calls it with the default window 1200.
`window_chars` is a Python `int`, hence `Int` here; the window is
`text[: max(0, window_chars)]`. -/
def check_definition (plainText title : String) (strict : Bool) (windowChars : Int) : Bool :=
  defLoop strict (stripChars (lowerList title.toList))
    (scanDefTerms ((stripChars plainText.toList).take (max 0 windowChars).toNat))

/-- Criterion 3, `check_h2_headings(soup, min_h2=3)`. -/
def check_h2_headings (soup : Forest) (minH2 : Nat) : Bool :=
  decide (minH2 ≤ countTag "h2" soup)

/-- `len(UNITS_NUMBER_RE.findall(plain_text))`. -/
def factsCount (plainText : String) : Nat :=
  scanCount matchUnitsAt plainText.toList

/-- Criterion 4, `check_facts(plain_text, min_numbers_with_units=3)`. -/
def check_facts (plainText : String) (minNumbersWithUnits : Nat) : Bool :=
  decide (minNumbersWithUnits ≤ factsCount plainText)

/-- `SOURCE_TEXT_RE.search(text) is not None` in `check_sources`. -/
def hasSourceSectionHint (plainText : String) : Bool :=
  scanHas (matchWordAltAt sourceTextLits) none plainText.toList

/-- `len(SOURCE_DOMAIN_RE.findall(" ".join(hrefs)))` in `check_sources`: the
whitelist scan runs over the hrefs of all links joined by single spaces. -/
def whitelistedLinksCount (soup : Forest) : Nat :=
  scanCount matchDomainAt (String.intercalate " " (collectHrefs soup)).toList

/-- `sum(1 for h in hrefs if h.lower().startswith(("http://", "https://")))`
in `check_sources`. -/
def httpLinksCount (soup : Forest) : Nat :=
  ((collectHrefs soup).filter (fun h =>
    startsWithChars "http://".toList (lowerList h.toList) ||
    startsWithChars "https://".toList (lowerList h.toList))).length

/-- Criterion 5, `check_sources(plain_text, soup, strict=)`. -/
def check_sources (plainText : String) (soup : Forest) (strict : Bool) : Bool :=
  if strict then
    decide (0 < whitelistedLinksCount soup) ||
      (hasSourceSectionHint plainText && decide (0 < httpLinksCount soup))
  else
    hasSourceSectionHint plainText || decide (0 < whitelistedLinksCount soup)

/-- Criterion 6, `check_faq(plain_text, soup)`. -/
def check_faq (plainText : String) (soup : Forest) : Bool :=
  scanHas (matchWordAltAt faqTextLits) none plainText.toList ||
    decide (0 < countTag "dl" soup) || hasFaqSchema soup

/-- Criterion 7, `check_lists(soup, min_lists=1)`. -/
def check_lists (soup : Forest) (minLists : Nat) : Bool :=
  decide (minLists ≤ countTag "ul" soup + countTag "ol" soup)

/-- Criterion 8, `check_tables(soup, min_tables=1)`. -/
def check_tables (soup : Forest) (minTables : Nat) : Bool :=
  decide (minTables ≤ countTag "table" soup)

/-- Criterion 9, `check_word_count(plain_text, min_words=500)`. -/
def check_word_count (plainText : String) (minWords : Nat) : Bool :=
  decide (minWords ≤ countWords plainText.toList)

/-- Criterion 10, `check_meta_description(meta_description, min_len=120,
max_len=160)`: length of the stripped description within the bounds. -/
def check_meta_description (metaDescription : String) (minLen maxLen : Nat) : Bool :=
  decide (minLen ≤ (stripChars metaDescription.toList).length) &&
    decide ((stripChars metaDescription.toList).length ≤ maxLen)

/-! ## Aggregation (`analyze_article`) -/

/-- The audit result: the ten named verdicts, the score and the
recommendation list, as in the frozen `AuditResult` dataclass.  The `details`
field (the per-check evidence dictionaries, diagnostic output consumed by
reporting only) is not modelled. -/
structure AuditResult where
  direct_answer : Bool
  definition : Bool
  headings : Bool
  facts : Bool
  sources : Bool
  faq : Bool
  lists : Bool
  tables : Bool
  word_count_ok : Bool
  meta_ok : Bool
  score : Nat
  recommendations : List String
deriving DecidableEq

/-- `RECOMMENDATIONS_TEXT["direct_answer"]`. -/
def recDirectAnswer : String :=
  "Pridaj priamu odpoveď hneď do úvodu (1–2 vety), bez vaty a bez otázok."

/-- `RECOMMENDATIONS_TEXT["definition"]`. -/
def recDefinition : String :=
  "Doplň stručnú definíciu hlavného pojmu (napr. „X je … / X znamená …“), ideálne v úvode."

/-- `RECOMMENDATIONS_TEXT["headings"]`. -/
def recHeadings : String :=
  "Pridaj viac H2 podnadpisov (článok sa bude lepšie skenovať a segmentovať)."

/-- `RECOMMENDATIONS_TEXT["facts"]`. -/
def recFacts : String :=
  "Doplň merateľné fakty (čísla, percentá, dávkovanie, štúdie), aby bol obsah konkrétnejší."

/-- `RECOMMENDATIONS_TEXT["sources"]`. -/
def recSources : String :=
  "Doplň citácie zdrojov (odkazy) alebo sekciu „Zdroje/References/Štúdie“ s reálnymi linkami."

/-- `RECOMMENDATIONS_TEXT["faq"]`. -/
def recFaq : String :=
  "Pridaj FAQ blok (FAQ/Časté otázky) – ideálne s konkrétnymi otázkami a odpoveďami."

/-- `RECOMMENDATIONS_TEXT["lists"]`. -/
def recLists : String :=
  "Pridaj zoznamy (<ul>/<ol>) pre lepšiu čitateľnosť (napr. kroky, tipy, výhody/nevýhody)."

/-- `RECOMMENDATIONS_TEXT["tables"]`. -/
def recTables : String :=
  "Ak dáva zmysel, pridaj tabuľku (porovnanie, dávkovanie, prehľad) pre rýchle skenovanie."

/-- `RECOMMENDATIONS_TEXT["word_count_ok"]`. -/
def recWordCount : String :=
  "Doplň obsah – článok má mať aspoň 500 slov (word count z čistého textu bez HTML)."

/-- `RECOMMENDATIONS_TEXT["meta_ok"]`. -/
def recMetaOk : String :=
  "Uprav meta description na ~120–160 znakov (jasne, s benefitom a kľúčovým pojmom)."

/-- Score and recommendation assembly of `analyze_article` from the ten
verdicts: `score = sum(1 for x in flags if x)` over the flags in canonical
order, and one fixed recommendation string appended per failed check, in the
same order. -/
def buildResult (directOk defOk h2Ok factsOk sourcesOk faqOk listsOk tablesOk wcOk metaOk : Bool) :
    AuditResult where
  direct_answer := directOk
  definition := defOk
  headings := h2Ok
  facts := factsOk
  sources := sourcesOk
  faq := faqOk
  lists := listsOk
  tables := tablesOk
  word_count_ok := wcOk
  meta_ok := metaOk
  score :=
    (([directOk, defOk, h2Ok, factsOk, sourcesOk, faqOk, listsOk, tablesOk, wcOk,
       metaOk]).filter (fun x => x)).length
  recommendations :=
    (if directOk then [] else [recDirectAnswer]) ++
    (if defOk then [] else [recDefinition]) ++
    (if h2Ok then [] else [recHeadings]) ++
    (if factsOk then [] else [recFacts]) ++
    (if sourcesOk then [] else [recSources]) ++
    (if faqOk then [] else [recFaq]) ++
    (if listsOk then [] else [recLists]) ++
    (if tablesOk then [] else [recTables]) ++
    (if wcOk then [] else [recWordCount]) ++
    (if metaOk then [] else [recMetaOk])

/-- The ten check invocations of `analyze_article`, with the source's default
thresholds, over an already noise-stripped document and an already extracted
plain text. -/
def analyze_checks (soup : Forest) (plain metaDescription title : String) (strict : Bool) :
    AuditResult :=
  buildResult
    (check_direct_answer plain)
    (check_definition plain title strict 1200)
    (check_h2_headings soup 3)
    (check_facts plain 3)
    (check_sources plain soup strict)
    (check_faq plain soup)
    (check_lists soup 1)
    (check_tables soup 1)
    (check_word_count plain 500)
    (check_meta_description metaDescription 120 160)

/-- The evaluation core after normalization: extract the plain text from the
noise-stripped document and run the ten checks. -/
def analyze_core (soup : Forest) (metaDescription title : String) (strict : Bool) : AuditResult :=
  analyze_checks soup (getText soup) metaDescription title strict

/-- `analyze_article(content_html, meta_description, title=, strict=)`.
The external `bs4` parse of `content_html` is the `doc` argument (the empty
input parses to `Forest.nil`); `_html_to_soup` then strips the noise nodes
and `_plain_text_from_soup` extracts the plain text, and the ten checks run
on the shared results. -/
def analyze_article (doc : Forest) (metaDescription title : String) (strict : Bool) :
    AuditResult :=
  analyze_core (stripNoise doc) metaDescription title strict

/-! ## Control-flow model of `analyze_article`'s fault handling

Python exceptions are modelled by `Except String`.  The source wraps only the
two normalization steps in `try/except` (falling back to an empty soup and an
empty plain text); the ten check invocations that follow carry no handler, so
the monadic bind below propagates a check's fault, exactly as a raised Python
exception would. -/

/-- The ten checks as possibly-faulting computations.  Instantiating every
field with the (total) embedded check wrapped in `Except.ok` recovers the
source as written; instantiating a field with `Except.error` models an
unexpected exception inside that check. -/
structure CheckFns where
  direct : String → Except String Bool
  defn : String → String → Bool → Except String Bool
  h2 : Forest → Except String Bool
  facts : String → Except String Bool
  sources : String → Forest → Bool → Except String Bool
  faq : String → Forest → Except String Bool
  lists : Forest → Except String Bool
  tables : Forest → Except String Bool
  wordCount : String → Except String Bool
  meta : String → Except String Bool

/-- The source's actual checks: total functions, never faulting. -/
def pureChecks : CheckFns where
  direct := fun p => Except.ok (check_direct_answer p)
  defn := fun p t s => Except.ok (check_definition p t s 1200)
  h2 := fun f => Except.ok (check_h2_headings f 3)
  facts := fun p => Except.ok (check_facts p 3)
  sources := fun p f s => Except.ok (check_sources p f s)
  faq := fun p f => Except.ok (check_faq p f)
  lists := fun f => Except.ok (check_lists f 1)
  tables := fun f => Except.ok (check_tables f 1)
  wordCount := fun p => Except.ok (check_word_count p 500)
  meta := fun m => Except.ok (check_meta_description m 120 160)

/-- The source's checks with a fault injected into the facts check. -/
def faultyFactsChecks : CheckFns :=
  { pureChecks with facts := fun _ => Except.error "boom" }

/-- `analyze_article` with its exception flow explicit.  `normalized` is the
outcome of `_html_to_soup` (parse plus noise stripping) and `extract` that of
`_plain_text_from_soup`; both are guarded by `try/except` in the source, the
first recovering to an empty soup, the second to the empty string.  The ten
check calls are sequenced without any handler, mirroring lines 406–416 of the
source, so a faulting check short-circuits the whole evaluation. -/
def analyze_article_exc (normalized : Except String Forest)
    (extract : Forest → Except String String) (ck : CheckFns)
    (metaDescription title : String) (strict : Bool) : Except String AuditResult :=
  let soup := match normalized with
    | Except.ok s => s
    | Except.error _ => Forest.nil
  let plain := match extract soup with
    | Except.ok p => p
    | Except.error _ => ""
  do
    let directOk ← ck.direct plain
    let defOk ← ck.defn plain title strict
    let h2Ok ← ck.h2 soup
    let factsOk ← ck.facts plain
    let sourcesOk ← ck.sources plain soup strict
    let faqOk ← ck.faq plain soup
    let listsOk ← ck.lists soup
    let tablesOk ← ck.tables soup
    let wcOk ← ck.wordCount plain
    let metaOk ← ck.meta metaDescription
    pure (buildResult directOk defOk h2Ok factsOk sourcesOk faqOk listsOk tablesOk wcOk metaOk)

/-! ## Shared lemmas -/

/-- Score and recommendation-length arithmetic of `buildResult`, for all
2^10 verdict combinations. -/
theorem buildResult_score_rec (b1 b2 b3 b4 b5 b6 b7 b8 b9 b10 : Bool) :
    (buildResult b1 b2 b3 b4 b5 b6 b7 b8 b9 b10).score
        = List.count true
            [(buildResult b1 b2 b3 b4 b5 b6 b7 b8 b9 b10).direct_answer,
             (buildResult b1 b2 b3 b4 b5 b6 b7 b8 b9 b10).definition,
             (buildResult b1 b2 b3 b4 b5 b6 b7 b8 b9 b10).headings,
             (buildResult b1 b2 b3 b4 b5 b6 b7 b8 b9 b10).facts,
             (buildResult b1 b2 b3 b4 b5 b6 b7 b8 b9 b10).sources,
             (buildResult b1 b2 b3 b4 b5 b6 b7 b8 b9 b10).faq,
             (buildResult b1 b2 b3 b4 b5 b6 b7 b8 b9 b10).lists,
             (buildResult b1 b2 b3 b4 b5 b6 b7 b8 b9 b10).tables,
             (buildResult b1 b2 b3 b4 b5 b6 b7 b8 b9 b10).word_count_ok,
             (buildResult b1 b2 b3 b4 b5 b6 b7 b8 b9 b10).meta_ok] ∧
      (buildResult b1 b2 b3 b4 b5 b6 b7 b8 b9 b10).score ≤ 10 ∧
      (buildResult b1 b2 b3 b4 b5 b6 b7 b8 b9 b10).recommendations.length
        = 10 - (buildResult b1 b2 b3 b4 b5 b6 b7 b8 b9 b10).score := by
  revert b1 b2 b3 b4 b5 b6 b7 b8 b9 b10
  decide

/-- The strict-mode filter of the `check_definition` loop is inert when the
lowercased, stripped title is empty. -/
theorem defLoop_empty_title (strict : Bool) :
    ∀ terms, defLoop strict [] terms = defLoop false [] terms := by
  intro terms
  induction terms with
  | nil => rfl
  | cons term rest ih => simp [defLoop, ih]

/-! ## The claims -/

/-- C1: for every input, the `AuditResult` of `analyze_article` has `score`
equal to the number of true verdicts among its ten boolean criterion fields,
`score` lies in `[0, 10]`, and the recommendations list has length
`10 - score`. -/
theorem analyze_article_score_invariant (doc : Forest) (metaDescription title : String)
    (strict : Bool) :
    (analyze_article doc metaDescription title strict).score
        = List.count true
            [(analyze_article doc metaDescription title strict).direct_answer,
             (analyze_article doc metaDescription title strict).definition,
             (analyze_article doc metaDescription title strict).headings,
             (analyze_article doc metaDescription title strict).facts,
             (analyze_article doc metaDescription title strict).sources,
             (analyze_article doc metaDescription title strict).faq,
             (analyze_article doc metaDescription title strict).lists,
             (analyze_article doc metaDescription title strict).tables,
             (analyze_article doc metaDescription title strict).word_count_ok,
             (analyze_article doc metaDescription title strict).meta_ok] ∧
      (analyze_article doc metaDescription title strict).score ≤ 10 ∧
      (analyze_article doc metaDescription title strict).recommendations.length
        = 10 - (analyze_article doc metaDescription title strict).score := by
  simp only [analyze_article, analyze_core, analyze_checks]
  exact buildResult_score_rec _ _ _ _ _ _ _ _ _ _

/-- C2: on the text consisting exactly of the occurrences "5 mg", "10%",
"200 kcal", `UNITS_NUMBER_RE` finds only 2 matches — not the 3 the claim
states — because the pattern's trailing `\b` can never hold after the unit
`%` when the percent sign is followed by a space or the end of the text (`%`
is not a word character), so `check_facts` with the default threshold 3
fails.  Replacing the space after "10%" with a word character restores the
boundary and yields the 3 matches the claim expects. -/
theorem check_facts_percent_unit_unmatchable :
    factsCount "5 mg 10% 200 kcal" = 2 ∧
    check_facts "5 mg 10% 200 kcal" 3 = false ∧
    factsCount "5 mg 10%w 200 kcal" = 3 ∧
    check_facts "5 mg 10%w 200 kcal" 3 = true := by
  exact ⟨by decide, by decide, by decide, by decide⟩

/-- C3 counterexample: `script` is not in `NOISE_SELECTORS`, so a `script`
node survives `_strip_noise` untouched and its text appears in the plain text
consumed by the checks — refuting the claim that script blocks are among the
deleted node kinds. -/
theorem strip_noise_keeps_script_cx :
    stripNoise (Forest.elem "script" [] (Forest.text "EVIL" Forest.nil) Forest.nil)
        = Forest.elem "script" [] (Forest.text "EVIL" Forest.nil) Forest.nil ∧
      getText (stripNoise (Forest.elem "script" [] (Forest.text "EVIL" Forest.nil) Forest.nil))
        = "EVIL" := by
  exact ⟨by decide, by decide⟩

/-- C3 (amended): after `_strip_noise`, no node at any depth is a navigation,
header, footer, aside, form or no-script element, or an element flagged
`aria-modal="true"` — every such node is deleted with its whole subtree
before text extraction (script elements, by contrast, are kept). -/
theorem strip_noise_removes_noise_nodes : ∀ f : Forest, noNoise (stripNoise f) = true := by
  intro f
  induction f with
  | nil => rfl
  | text s rest ih => simpa [stripNoise, noNoise] using ih
  | elem t a c rest ihc ihr =>
      cases hn : isNoiseElem t a with
      | true => simpa [stripNoise, hn] using ihr
      | false => simp [stripNoise, hn, noNoise, ihc, ihr]

/-- C4 counterexample: a fault inside a single check is not contained — with
an exception injected into the facts check, `analyze_article`'s check
sequence propagates the fault to the caller instead of returning an
`AuditResult`, because the source guards only the two normalization steps
with `try/except`, not the ten check calls. -/
theorem analyze_article_exc_check_fault_propagates_cx :
    analyze_article_exc (Except.ok Forest.nil) (fun f => Except.ok (getText f))
        faultyFactsChecks "" "" false
      = Except.error "boom" := rfl

/-- C4 (amended): faults in the two normalization steps are contained.  For
any outcome of `_html_to_soup` (first conjunct) and additionally any outcome
of `_plain_text_from_soup` (second conjunct), `analyze_article` with the
source's actual (total) checks recovers to the empty soup / empty plain text
and always hands the caller an `AuditResult`. -/
theorem analyze_article_exc_normalization_fault_contained :
    (∀ (normalized : Except String Forest) (metaDescription title : String) (strict : Bool),
      analyze_article_exc normalized (fun f => Except.ok (getText f)) pureChecks
          metaDescription title strict
        = Except.ok (analyze_core
            (match normalized with
             | Except.ok s => s
             | Except.error _ => Forest.nil) metaDescription title strict)) ∧
    (∀ (normalized : Except String Forest) (extracted : Except String String)
        (metaDescription title : String) (strict : Bool),
      analyze_article_exc normalized (fun _ => extracted) pureChecks
          metaDescription title strict
        = Except.ok (analyze_checks
            (match normalized with
             | Except.ok s => s
             | Except.error _ => Forest.nil)
            (match extracted with
             | Except.ok p => p
             | Except.error _ => "") metaDescription title strict)) := by
  constructor
  · intro normalized metaDescription title strict
    cases normalized <;> rfl
  · intro normalized extracted metaDescription title strict
    cases normalized <;> cases extracted <;> rfl

/-- C5: the sources check.  Non-strict: the plain text "Zdroje" with no links
passes.  Strict: the same input fails.  In general, strict mode passes
exactly when there is a whitelisted-domain match in the joined hrefs, or the
sources-section hint is present together with at least one http(s) link. -/
theorem check_sources_hint_and_strict_policy :
    check_sources "Zdroje" Forest.nil false = true ∧
    check_sources "Zdroje" Forest.nil true = false ∧
    ∀ (plainText : String) (soup : Forest),
      check_sources plainText soup true
        = (decide (0 < whitelistedLinksCount soup) ||
            (hasSourceSectionHint plainText && decide (0 < httpLinksCount soup))) := by
  exact ⟨by decide, by decide, fun _ _ => rfl⟩

/-- C6: the definition check on "Kreatín je doplnok výživy." (default window
1200): with title "Kreatín" it passes in both modes; with title "Vitamíny" it
passes only in non-strict mode; and with an empty title the strict-mode
title-containment requirement is inert — strict mode behaves exactly like
non-strict mode for every text and window. -/
theorem check_definition_kreatin_cases :
    check_definition "Kreatín je doplnok výživy." "Kreatín" false 1200 = true ∧
    check_definition "Kreatín je doplnok výživy." "Kreatín" true 1200 = true ∧
    check_definition "Kreatín je doplnok výživy." "Vitamíny" false 1200 = true ∧
    check_definition "Kreatín je doplnok výživy." "Vitamíny" true 1200 = false ∧
    ∀ (plainText : String) (strict : Bool) (windowChars : Int),
      check_definition plainText "" strict windowChars
        = check_definition plainText "" false windowChars := by
  refine ⟨by decide, by decide, by decide, by decide, ?_⟩
  intro plainText strict windowChars
  exact defLoop_empty_title strict _

/-- C7: with an empty parsed body and an empty meta description — any title,
either strict value — every one of the ten verdicts is false and the score is
0. -/
theorem analyze_article_empty_input_all_false (title : String) (strict : Bool) :
    (analyze_article Forest.nil "" title strict).direct_answer = false ∧
    (analyze_article Forest.nil "" title strict).definition = false ∧
    (analyze_article Forest.nil "" title strict).headings = false ∧
    (analyze_article Forest.nil "" title strict).facts = false ∧
    (analyze_article Forest.nil "" title strict).sources = false ∧
    (analyze_article Forest.nil "" title strict).faq = false ∧
    (analyze_article Forest.nil "" title strict).lists = false ∧
    (analyze_article Forest.nil "" title strict).tables = false ∧
    (analyze_article Forest.nil "" title strict).word_count_ok = false ∧
    (analyze_article Forest.nil "" title strict).meta_ok = false ∧
    (analyze_article Forest.nil "" title strict).score = 0 := by
  cases strict <;>
    exact ⟨rfl, rfl, rfl, rfl, rfl, rfl, rfl, rfl, rfl, rfl, rfl⟩

/-- C8: the `strict` flag only tightens the definition and sources checks —
the other eight verdicts of `analyze_article` coincide between the strict and
non-strict runs for every input. -/
theorem analyze_article_strict_frame (doc : Forest) (metaDescription title : String) :
    (analyze_article doc metaDescription title true).direct_answer
        = (analyze_article doc metaDescription title false).direct_answer ∧
    (analyze_article doc metaDescription title true).headings
        = (analyze_article doc metaDescription title false).headings ∧
    (analyze_article doc metaDescription title true).facts
        = (analyze_article doc metaDescription title false).facts ∧
    (analyze_article doc metaDescription title true).faq
        = (analyze_article doc metaDescription title false).faq ∧
    (analyze_article doc metaDescription title true).lists
        = (analyze_article doc metaDescription title false).lists ∧
    (analyze_article doc metaDescription title true).tables
        = (analyze_article doc metaDescription title false).tables ∧
    (analyze_article doc metaDescription title true).word_count_ok
        = (analyze_article doc metaDescription title false).word_count_ok ∧
    (analyze_article doc metaDescription title true).meta_ok
        = (analyze_article doc metaDescription title false).meta_ok :=
  ⟨rfl, rfl, rfl, rfl, rfl, rfl, rfl, rfl⟩

/-- C9: the whitelist scan of `check_sources` runs over the full joined href
text, not over each link's host.  The document below has a single anchor
whose href does not begin with any whitelisted-domain URL (its host is
`evil.com` — first conjunct), yet the whitelisted URL inside its query string
is counted as a whitelist match, and the check passes in both modes. -/
theorem check_sources_whitelist_substring_href :
    matchDomainAt none "https://evil.com/?u=https://examine.com/x".toList = none ∧
    whitelistedLinksCount
        (Forest.elem "a" [("href", "https://evil.com/?u=https://examine.com/x")]
          (Forest.text "link" Forest.nil) Forest.nil) = 1 ∧
    check_sources ""
        (Forest.elem "a" [("href", "https://evil.com/?u=https://examine.com/x")]
          (Forest.text "link" Forest.nil) Forest.nil) false = true ∧
    check_sources ""
        (Forest.elem "a" [("href", "https://evil.com/?u=https://examine.com/x")]
          (Forest.text "link" Forest.nil) Forest.nil) true = true := by
  exact ⟨by decide, by decide, by decide, by decide⟩

/-- C10: a zero or negative `window_chars` override clamps the search window
of `check_definition` to the empty string, so the verdict is false for every
text, title and strict value. -/
theorem check_definition_nonpositive_window (plainText title : String) (strict : Bool)
    (windowChars : Int) (h : windowChars ≤ 0) :
    check_definition plainText title strict windowChars = false := by
  unfold check_definition
  rw [max_eq_left h]
  simp [scanDefTerms, scanDefTermsFuel, defLoop]

/-- Witness for C10 at a concrete negative window. -/
theorem check_definition_nonpositive_window_witness :
    check_definition "Kreatín je doplnok výživy." "Kreatín" false (-5) = false :=
  check_definition_nonpositive_window "Kreatín je doplnok výživy." "Kreatín" false (-5)
    (by decide)

end GeoAudit
